import Mathlib

/-!
Shallow embedding of the session-authentication core of
`importstar/fastapi-beanie-starter`, covering:

* `src/app/core/security.py` — `create_access_token`, `create_refresh_token`,
  `verify_password`, `get_password_hash`;
* `src/app/routers/v1/auth.py` — the `POST /auth/token`, `POST /auth/login`
  and `GET /auth/refresh_token` handlers;
* `src/apiapp/modules/auth/router.py` — the platform-aware token delivery
  in the `POST /v1/auth/login` handler, together with the schemas of
  `src/apiapp/modules/auth/schemas.py`.

Time is modelled in seconds as `Nat` (`datetime.now()` becomes an explicit
`now : Nat` parameter, `timedelta(minutes = m)` becomes `m * 60`).  An
encoded JWT is modelled by the data that determines the encoded string:
`jwt.encode(payload, key, algorithm)` is injective on its inputs, so two
model tokens are equal exactly when the real encoded strings are equal.
-/

namespace FastapiBeanieStarter

/-- Exceptions of the Python runtime that the handlers can surface.
`valueError` is raised by `bcrypt.checkpw` on an unparseable hash;
`nameError` is raised when a handler references an unbound name. -/
inductive PyError where
  | valueError
  | nameError
  deriving DecidableEq, Repr

/-- Modelled from the spec: the settings object of `app.core.config`
(module not under `src/`), restricted to the fields read by
`src/app/core/security.py` and `src/app/routers/v1/auth.py`:
`SECRET_KEY`, `ACCESS_TOKEN_EXPIRE_MINUTES`, `REFRESH_TOKEN_EXPIRE_MINUTES`
("Environment/config dependencies (external, not re-specified here):
signing secret, access TTL, refresh TTL"). -/
structure Config where
  SECRET_KEY : String
  ACCESS_TOKEN_EXPIRE_MINUTES : Nat
  REFRESH_TOKEN_EXPIRE_MINUTES : Nat
  deriving DecidableEq, Repr

/-- An encoded JWT, represented by the data that determines the encoded
string: the claim payload passed to `jwt.encode` (an association list of
string claims), the `exp` claim set by `to_encode.update({"exp": expire})`,
the signing key and the algorithm. -/
structure JwtToken where
  payload : List (String × String)
  exp : Nat
  key : String
  alg : String
  deriving DecidableEq, Repr

/-- `ALGORITHM = "HS256"` from `src/app/core/security.py`. -/
def ALGORITHM : String := "HS256"

/-- `create_access_token` from `src/app/core/security.py`: copies `data`,
sets `exp` to `now + expires_delta` when `if expires_delta:` is truthy —
that is, when the delta is present **and** nonzero, since `None` and
`timedelta(0)` are both falsy in Python — and to
`now + timedelta(minutes = settings.ACCESS_TOKEN_EXPIRE_MINUTES)`
otherwise, and signs with `settings.SECRET_KEY` under `HS256`. -/
def create_access_token (settings : Config) (data : List (String × String))
    (expires_delta : Option Nat) (now : Nat) : JwtToken :=
  let expire : Nat :=
    match expires_delta with
    | some delta =>
      if delta != 0 then now + delta
      else now + settings.ACCESS_TOKEN_EXPIRE_MINUTES * 60
    | none => now + settings.ACCESS_TOKEN_EXPIRE_MINUTES * 60
  { payload := data, exp := expire, key := settings.SECRET_KEY, alg := ALGORITHM }

/-- `create_refresh_token` from `src/app/core/security.py`: identical to
`create_access_token` except that the falsy branch of `if expires_delta:`
(absent delta, or the falsy `timedelta(0)`) uses
`settings.REFRESH_TOKEN_EXPIRE_MINUTES`. -/
def create_refresh_token (settings : Config) (data : List (String × String))
    (expires_delta : Option Nat) (now : Nat) : JwtToken :=
  let expire : Nat :=
    match expires_delta with
    | some delta =>
      if delta != 0 then now + delta
      else now + settings.REFRESH_TOKEN_EXPIRE_MINUTES * 60
    | none => now + settings.REFRESH_TOKEN_EXPIRE_MINUTES * 60
  { payload := data, exp := expire, key := settings.SECRET_KEY, alg := ALGORITHM }

/-- A stored `models.User` document as read by the two login handlers in
`src/app/routers/v1/auth.py` (the Beanie model itself lives in `app.models`,
outside `src/`; these are exactly the fields the handlers read). -/
structure User where
  id : String
  username : String
  email : String
  deriving DecidableEq, Repr

/-- `await models.User.find_one(models.User.username == name)`:
first stored document whose `username` equals `name`. -/
def find_one_by_username (users : List User) (name : String) : Option User :=
  users.find? (fun u => u.username == name)

/-- `await models.User.find_one(models.User.email == name)`:
first stored document whose `email` equals `name`. -/
def find_one_by_email (users : List User) (name : String) : Option User :=
  users.find? (fun u => u.email == name)

/-- An `HTTPException` as raised by the handlers: status code and detail. -/
structure HTTPError where
  status_code : Nat
  detail : String
  deriving DecidableEq, Repr

/-- The body returned by `POST /auth/token`:
`{"access_token": ..., "token_type": ...}`. -/
structure AccessTokenBody where
  access_token : JwtToken
  token_type : String
  deriving DecidableEq, Repr

/-- `login_for_access_token` (`POST /auth/token`) from
`src/app/routers/v1/auth.py`: looks the user up by username only, raises
`401 "Incorrect username or password"` when there is none, and otherwise
returns an access token with `expires_delta` equal to the access TTL and
the literal `token_type` string `"bearer"`.  The `password` field of the
form is bound but never read by the handler body. -/
def login_for_access_token (settings : Config) (users : List User)
    (username : String) (password : String) (now : Nat) :
    Except HTTPError AccessTokenBody :=
  match find_one_by_username users username with
  | none => .error { status_code := 401, detail := "Incorrect username or password" }
  | some user =>
    let access_token_expires := settings.ACCESS_TOKEN_EXPIRE_MINUTES * 60
    .ok { access_token :=
            create_access_token settings [("sub", user.id)]
              (some access_token_expires) now,
          token_type := "bearer" }

/-- The `schemas.Token` value constructed by the `POST /auth/login` handler
in `src/app/routers/v1/auth.py` (the schema module is outside `src/`; the
fields are exactly those of the constructor call at lines 71–83). -/
structure AppToken where
  access_token : JwtToken
  refresh_token : JwtToken
  token_type : String
  scope : String
  expires_in : Nat
  expires_at : Nat
  issued_at : Nat
  deriving DecidableEq, Repr

/-- `authentication` (`POST /auth/login`) from `src/app/routers/v1/auth.py`:
looks the user up by username and, failing that, by email; raises
`401 "Incorrect username or password"` when no user matches or when
`user.verify_password` rejects the submitted password; otherwise stamps
`last_login_date = now` and returns a token pair in which **both** tokens
are created with `expires_delta = access_token_expires`.  The password
check `user.verify_password` is a method of the `app.models.User` document
(outside `src/`) and is passed in as `vp`. -/
def authentication (settings : Config) (users : List User)
    (vp : User → String → Bool) (username : String) (password : String)
    (now : Nat) : Except HTTPError AppToken :=
  let found :=
    match find_one_by_username users username with
    | some u => some u
    | none => find_one_by_email users username
  match found with
  | none => .error { status_code := 401, detail := "Incorrect username or password" }
  | some user =>
    if vp user password then
      let access_token_expires := settings.ACCESS_TOKEN_EXPIRE_MINUTES * 60
      .ok { access_token :=
              create_access_token settings [("sub", user.id)]
                (some access_token_expires) now,
            refresh_token :=
              create_refresh_token settings [("sub", user.id)]
                (some access_token_expires) now,
            token_type := "Bearer",
            scope := "",
            expires_in := settings.ACCESS_TOKEN_EXPIRE_MINUTES * 60,
            expires_at := now + access_token_expires,
            issued_at := now }
    else
      .error { status_code := 401, detail := "Incorrect username or password" }

/-- `refresh_token` (`GET /auth/refresh_token`) from
`src/app/routers/v1/auth.py`: the body executes
`jwt_handler = get_jwt_handler()`, but `get_jwt_handler` is neither defined
nor imported anywhere in the module (the only JWT helpers,
`decode_jwt`/`JWTBearer` in `src/app/core/security.py`, are commented out),
so every request raises `NameError` before the presented token is examined. -/
def refresh_token_endpoint (credentials : String) : Except PyError JwtToken :=
  .error .nameError

/-! ## Platform-aware delivery (`src/apiapp/modules/auth/`) -/

/-- `Platform` from `src/apiapp/modules/auth/schemas.py`:
`WEB = "web"`, `MOBILE = "mobile"`. -/
inductive Platform where
  | WEB
  | MOBILE
  deriving DecidableEq, Repr

/-- `Token` from `src/apiapp/modules/auth/schemas.py`: `access_token : str`,
`refresh_token : Optional[str] = None`, `token_type : str`,
`expires_in : int`, `expires_at`, `scope : str`, `issued_at`. -/
structure ApiToken where
  access_token : String
  refresh_token : Option String
  token_type : String
  expires_in : Nat
  expires_at : Nat
  scope : String
  issued_at : Nat
  deriving DecidableEq, Repr

/-- One `response.set_cookie(...)` call, recorded by its arguments. -/
structure CookieDirective where
  key : String
  value : Option String
  httponly : Bool
  samesite : String
  secure : Bool
  deriving DecidableEq, Repr

/-- The delivery logic of the `login` handler (`POST /v1/auth/login`) in
`src/apiapp/modules/auth/router.py`, applied to the token returned by
`use_case.authenticate` (the use-case module is outside `src/`; the handler
operates on an arbitrary token, which is passed in): for `Platform.WEB` it
calls `response.set_cookie(key="refresh_token", value=token.refresh_token,
httponly=True, samesite="strict", secure=True)` and then sets
`token.refresh_token = None`; for `Platform.MOBILE` it returns the token
unchanged and sets no cookie. -/
def login_deliver (platform : Platform) (token : ApiToken) :
    ApiToken × Option CookieDirective :=
  match platform with
  | .WEB =>
    ({ token with refresh_token := none },
     some { key := "refresh_token", value := token.refresh_token,
            httponly := true, samesite := "strict", secure := true })
  | .MOBILE => (token, none)

/-! ## Password hashing (`src/app/core/security.py` over the `bcrypt` library)

`verify_password` and `get_password_hash` are one-line delegations to the
external `bcrypt` package, which is not part of this repository.  The
library is modelled here by its documented interface: `hashpw(p, salt)`
produces a `$2b$cost$saltdigest` string that embeds the salt, with the
digest a deterministic function of `(password, salt, cost)`;
`checkpw(p, h)` parses `h`, recomputes the digest under the embedded salt
and compares, and raises `ValueError` ("Invalid salt") when `h` does not
parse as a bcrypt hash; `gensalt(cost)` draws a fresh random salt, made
explicit here as an `entropy` parameter.  A stored hash string is
represented by its parse: either a well-formed bcrypt hash (cost, salt,
digest) or an unparseable raw string. -/

/-- A well-formed bcrypt hash string, by its three components. -/
structure BcryptHash where
  cost : Nat
  salt : String
  digest : String
  deriving DecidableEq, Repr

/-- A stored password-hash string, represented by its parse as a bcrypt
hash: `parsed` when it is a well-formed `$2b$...` string, `malformed`
otherwise. -/
inductive HashString where
  | parsed (h : BcryptHash)
  | malformed (raw : String)
  deriving DecidableEq, Repr

/-- A bcrypt salt: work factor plus random salt characters. -/
structure BcryptSalt where
  cost : Nat
  value : String
  deriving DecidableEq, Repr

/-- The bcrypt key-derivation digest, a deterministic function of the
password, the salt and the work factor (the model takes any concrete
function; none of its algebraic properties are used). -/
def bcrypt_digest (password : String) (salt : String) (cost : Nat) : String :=
  toString (hash (password, salt, cost))

/-- `bcrypt.gensalt(cost)`: a fresh salt at the given work factor; the
random draw is the explicit `entropy` argument. -/
def bcrypt_gensalt (cost : Nat) (entropy : String) : BcryptSalt :=
  { cost := cost, value := entropy }

/-- `bcrypt.hashpw(password, salt)`: a well-formed hash string embedding
the salt and the digest computed from the password under that salt. -/
def bcrypt_hashpw (password : String) (salt : BcryptSalt) : HashString :=
  .parsed { cost := salt.cost, salt := salt.value,
            digest := bcrypt_digest password salt.value salt.cost }

/-- `bcrypt.checkpw(password, hashed)`: recomputes the digest under the
embedded salt and compares; raises `ValueError` when `hashed` does not
parse as a bcrypt hash. -/
def bcrypt_checkpw (password : String) (hashed : HashString) :
    Except PyError Bool :=
  match hashed with
  | .malformed _ => .error .valueError
  | .parsed h => .ok (bcrypt_digest password h.salt h.cost == h.digest)

/-- `verify_password` from `src/app/core/security.py`:
`bcrypt.checkpw(plain_password.encode(), hashed_password.encode())`,
with no exception handling of its own. -/
def verify_password (plain_password : String) (hashed_password : HashString) :
    Except PyError Bool :=
  bcrypt_checkpw plain_password hashed_password

/-- `get_password_hash` from `src/app/core/security.py`:
`bcrypt.hashpw(password.encode(), bcrypt.gensalt(14))`; the salt drawn by
`gensalt` is the explicit `entropy` argument. -/
def get_password_hash (password : String) (entropy : String) : HashString :=
  bcrypt_hashpw password (bcrypt_gensalt 14 entropy)

/-! ## Theorems -/

/-- C1: against the claim that the refresh token lifetime is the configured
refresh TTL, independent of the access TTL, a successful login under
`ACCESS_TOKEN_EXPIRE_MINUTES = 15` and `REFRESH_TOKEN_EXPIRE_MINUTES = 10080`
issues a refresh token whose expiry is `now + 15 * 60` (the access TTL) and
not `now + 10080 * 60`: the handler passes `access_token_expires` as
`expires_delta` to `create_refresh_token`, so the refresh TTL setting is
never consulted (the defect flagged in section 9 of the specification). -/
theorem C1_refresh_expiry_equals_access_ttl :
    ∃ tok : AppToken,
      authentication ⟨"k", 15, 10080⟩ [⟨"u1", "alice", "a@x"⟩]
        (fun _ _ => true) "alice" "pw" 0 = .ok tok ∧
      tok.refresh_token.exp = 0 + 15 * 60 ∧
      tok.refresh_token.exp ≠ 0 + 10080 * 60 ∧
      tok.refresh_token.exp = tok.access_token.exp := by
  refine ⟨_, rfl, rfl, by decide, rfl⟩

/-- C2: the `POST /auth/token` handler is independent of the submitted
password: whenever a stored user matches the username of the form, any two
requests that differ only in the password return identical responses, and
the request succeeds with an access token; the handler never reads the
password field. -/
theorem C2_token_endpoint_password_independent (settings : Config)
    (users : List User) (username p₁ p₂ : String) (now : Nat)
    (h : (find_one_by_username users username).isSome = true) :
    login_for_access_token settings users username p₁ now =
      login_for_access_token settings users username p₂ now ∧
    ∃ body : AccessTokenBody,
      login_for_access_token settings users username p₁ now = .ok body := by
  rcases ho : find_one_by_username users username with _ | u
  · rw [ho] at h
    exact absurd h (by simp)
  · refine ⟨by simp [login_for_access_token, ho],
      ⟨{ access_token := create_access_token settings [("sub", u.id)]
           (some (settings.ACCESS_TOKEN_EXPIRE_MINUTES * 60)) now,
         token_type := "bearer" }, by simp [login_for_access_token, ho]⟩⟩

/-- Closed instance of `C2_token_endpoint_password_independent` at a
concrete store, username and two distinct passwords. -/
theorem C2_witness :
    login_for_access_token ⟨"k", 15, 10080⟩ [⟨"u1", "alice", "a@x"⟩]
      "alice" "pw1" 0 =
      login_for_access_token ⟨"k", 15, 10080⟩ [⟨"u1", "alice", "a@x"⟩]
        "alice" "pw2" 0 ∧
    ∃ body : AccessTokenBody,
      login_for_access_token ⟨"k", 15, 10080⟩ [⟨"u1", "alice", "a@x"⟩]
        "alice" "pw1" 0 = .ok body :=
  C2_token_endpoint_password_independent ⟨"k", 15, 10080⟩
    [⟨"u1", "alice", "a@x"⟩] "alice" "pw1" "pw2" 0 (by decide)

/-- C3: against the claim that every encoded token carries a kind
discriminator checked on decode, a successful login issues an access token
and a refresh token whose payloads carry only the `sub` claim and no `kind`
claim at all — the two tokens are in fact the identical encoded string —
and the only decode site, `GET /auth/refresh_token`, raises `NameError` on
every input (it calls the undefined `get_jwt_handler`), so no
`WrongTokenKindError` check exists anywhere. -/
theorem C3_no_kind_discriminator :
    (∃ tok : AppToken,
       authentication ⟨"k", 15, 10080⟩ [⟨"u1", "alice", "a@x"⟩]
         (fun _ _ => true) "alice" "pw" 0 = .ok tok ∧
       tok.access_token.payload.map Prod.fst = ["sub"] ∧
       tok.refresh_token.payload.map Prod.fst = ["sub"] ∧
       "kind" ∉ tok.access_token.payload.map Prod.fst ∧
       tok.access_token = tok.refresh_token) ∧
    ∀ cred : String, refresh_token_endpoint cred = .error .nameError := by
  exact ⟨⟨_, rfl, rfl, rfl, by decide, rfl⟩, fun _ => rfl⟩

/-- C4: against the claim that `GET /auth/refresh_token` succeeds on every
valid unexpired refresh token, the handler raises `NameError` on every
request — its first statement calls `get_jwt_handler`, a name that is
neither defined nor imported — so it never returns an access token for any
presented credential. -/
theorem C4_refresh_endpoint_never_succeeds (cred : String) :
    refresh_token_endpoint cred = .error .nameError ∧
    ∀ tok : JwtToken, refresh_token_endpoint cred ≠ .ok tok :=
  ⟨rfl, fun _ h => by simp [refresh_token_endpoint] at h⟩

/-- Closed instance of `C4_refresh_endpoint_never_succeeds` at a concrete
bearer credential. -/
theorem C4_witness :
    refresh_token_endpoint "some.refresh.token" = .error .nameError ∧
    ∀ tok : JwtToken, refresh_token_endpoint "some.refresh.token" ≠ .ok tok :=
  C4_refresh_endpoint_never_succeeds "some.refresh.token"

/-- C5: for every token whose refresh slot holds a refresh token, delivery
for platform `web` removes the refresh token from the response body (sets
it to absent) and produces exactly one cookie directive named
`refresh_token` carrying the refresh token with `httponly = true`,
`samesite = "strict"`, `secure = true`; delivery for platform `mobile`
returns the body unchanged, refresh token included, and produces no cookie
directive. -/
theorem C5_delivery_policy (token : ApiToken) (rt : String)
    (h : token.refresh_token = some rt) :
    (login_deliver .WEB token).1.refresh_token = none ∧
    (login_deliver .WEB token).2 =
      some { key := "refresh_token", value := some rt, httponly := true,
             samesite := "strict", secure := true } ∧
    (login_deliver .MOBILE token).1 = token ∧
    (login_deliver .MOBILE token).1.refresh_token = some rt ∧
    (login_deliver .MOBILE token).2 = none := by
  refine ⟨rfl, ?_, rfl, ?_, rfl⟩
  · simp [login_deliver, h]
  · simp [login_deliver, h]

/-- Closed instance of `C5_delivery_policy` at a concrete token pair. -/
theorem C5_witness :
    (login_deliver .WEB
        ⟨"acc", some "ref", "Bearer", 900, 900, "", 0⟩).1.refresh_token = none ∧
    (login_deliver .WEB ⟨"acc", some "ref", "Bearer", 900, 900, "", 0⟩).2 =
      some { key := "refresh_token", value := some "ref", httponly := true,
             samesite := "strict", secure := true } ∧
    (login_deliver .MOBILE ⟨"acc", some "ref", "Bearer", 900, 900, "", 0⟩).1 =
      ⟨"acc", some "ref", "Bearer", 900, 900, "", 0⟩ ∧
    (login_deliver .MOBILE
        ⟨"acc", some "ref", "Bearer", 900, 900, "", 0⟩).1.refresh_token =
      some "ref" ∧
    (login_deliver .MOBILE ⟨"acc", some "ref", "Bearer", 900, 900, "", 0⟩).2 =
      none :=
  C5_delivery_policy ⟨"acc", some "ref", "Bearer", 900, 900, "", 0⟩ "ref" rfl

/-- C6: the login handler looks the user up first by username and then by
email, and returns the identical `401 "Incorrect username or password"`
error both when neither lookup matches and when a matched user fails
password verification, so the two failure causes are indistinguishable to
the caller. -/
theorem C6_indistinguishable_failures (settings : Config) (users : List User)
    (vp : User → String → Bool) (username password : String) (now : Nat) :
    (find_one_by_username users username = none →
      find_one_by_email users username = none →
      authentication settings users vp username password now =
        .error ⟨401, "Incorrect username or password"⟩) ∧
    (∀ user : User,
      (find_one_by_username users username = some user ∨
        (find_one_by_username users username = none ∧
          find_one_by_email users username = some user)) →
      vp user password = false →
      authentication settings users vp username password now =
        .error ⟨401, "Incorrect username or password"⟩) := by
  constructor
  · intro h1 h2
    simp [authentication, h1, h2]
  · rintro user (hu | ⟨h1, hu⟩) hv
    · simp [authentication, hu, hv]
    · simp [authentication, h1, hu, hv]

/-- Closed instance of `C6_indistinguishable_failures`: an unknown
username and a wrong password produce the same error value. -/
theorem C6_witness :
    authentication ⟨"k", 15, 10080⟩ [⟨"u1", "alice", "a@x"⟩]
        (fun _ _ => false) "nobody" "pw" 0 =
      .error ⟨401, "Incorrect username or password"⟩ ∧
    authentication ⟨"k", 15, 10080⟩ [⟨"u1", "alice", "a@x"⟩]
        (fun _ _ => false) "alice" "pw" 0 =
      .error ⟨401, "Incorrect username or password"⟩ :=
  ⟨(C6_indistinguishable_failures ⟨"k", 15, 10080⟩ [⟨"u1", "alice", "a@x"⟩]
      (fun _ _ => false) "nobody" "pw" 0).1 (by decide) (by decide),
   (C6_indistinguishable_failures ⟨"k", 15, 10080⟩ [⟨"u1", "alice", "a@x"⟩]
      (fun _ _ => false) "alice" "pw" 0).2 ⟨"u1", "alice", "a@x"⟩
     (Or.inl (by decide)) rfl⟩

/-- C7: for every plaintext `p` and any two distinct salts drawn by
`gensalt`, `verify_password p (get_password_hash p salt)` returns `true`,
and the two hash strings differ (the salt is embedded in the bcrypt
output) while both verify against `p`. -/
theorem C7_hash_verify_salted (p s₁ s₂ : String) (h : s₁ ≠ s₂) :
    verify_password p (get_password_hash p s₁) = .ok true ∧
    verify_password p (get_password_hash p s₂) = .ok true ∧
    get_password_hash p s₁ ≠ get_password_hash p s₂ := by
  refine ⟨?_, ?_, ?_⟩
  · simp [verify_password, get_password_hash, bcrypt_hashpw, bcrypt_checkpw,
      bcrypt_gensalt]
  · simp [verify_password, get_password_hash, bcrypt_hashpw, bcrypt_checkpw,
      bcrypt_gensalt]
  · intro heq
    simp [get_password_hash, bcrypt_hashpw, bcrypt_gensalt] at heq
    exact h heq.1

/-- Closed instance of `C7_hash_verify_salted` at a concrete password and
two concrete distinct salts. -/
theorem C7_witness :
    verify_password "pw" (get_password_hash "pw" "salt1") = .ok true ∧
    verify_password "pw" (get_password_hash "pw" "salt2") = .ok true ∧
    get_password_hash "pw" "salt1" ≠ get_password_hash "pw" "salt2" :=
  C7_hash_verify_salted "pw" "salt1" "salt2" (by decide)

/-- C8 counterexample: on the malformed stored hash `"nothash"` (which
does not parse as a bcrypt hash), `verify_password` raises the `ValueError`
propagated from `bcrypt.checkpw` — it does not return `false`, and the
code has no `MalformedCredentialError` to signal (no such exception exists
anywhere in the repository). -/
theorem C8_counterexample :
    verify_password "pw" (.malformed "nothash") = .error .valueError ∧
    verify_password "pw" (.malformed "nothash") ≠ .ok false := by
  exact ⟨rfl, by simp [verify_password, bcrypt_checkpw]⟩

/-- C8 amended: for every plaintext, `verify_password` raises the
`ValueError` from `bcrypt.checkpw` on every hash string that does not
parse as a bcrypt hash (rather than returning `false` or signalling a
`MalformedCredentialError`, which the code does not define), and returns
a boolean without raising on every well-formed bcrypt hash. -/
theorem C8_amended_verify_raises_value_error (plain : String)
    (hashed : HashString) :
    (match hashed with
     | .malformed _ => verify_password plain hashed = .error .valueError
     | .parsed _ => ∃ b : Bool, verify_password plain hashed = .ok b) := by
  cases hashed with
  | malformed raw => rfl
  | parsed h => exact ⟨_, rfl⟩

/-- C9 counterexample: a successful `POST /auth/token` request returns a
body whose `token_type` is the lowercase literal `"bearer"`, not the
constant `"Bearer"` the claim requires. -/
theorem C9_counterexample :
    ∃ body : AccessTokenBody,
      login_for_access_token ⟨"k", 15, 10080⟩ [⟨"u1", "alice", "a@x"⟩]
        "alice" "pw" 0 = .ok body ∧
      body.token_type = "bearer" ∧ body.token_type ≠ "Bearer" := by
  exact ⟨_, rfl, rfl, by decide⟩

/-- C9 amended: every successful `POST /auth/login` response carries
`token_type = "Bearer"`, while every successful `POST /auth/token`
response carries the lowercase `token_type = "bearer"`. -/
theorem C9_amended_token_type (settings : Config) (users : List User)
    (vp : User → String → Bool) (username password : String) (now : Nat)
    (tok : AppToken) (body : AccessTokenBody)
    (htok : authentication settings users vp username password now = .ok tok)
    (hbody : login_for_access_token settings users username password now =
      .ok body) :
    tok.token_type = "Bearer" ∧ body.token_type = "bearer" := by
  constructor
  · rcases hu : find_one_by_username users username with _ | u
    · rcases he : find_one_by_email users username with _ | u
      · simp [authentication, hu, he] at htok
      · by_cases hv : vp u password
        · simp only [authentication, hu, he, hv, if_true, Except.ok.injEq] at htok
          subst htok
          rfl
        · simp [authentication, hu, he, hv] at htok
    · by_cases hv : vp u password
      · simp only [authentication, hu, hv, if_true, Except.ok.injEq] at htok
        subst htok
        rfl
      · simp [authentication, hu, hv] at htok
  · rcases hu : find_one_by_username users username with _ | u
    · simp [login_for_access_token, hu] at hbody
    · simp only [login_for_access_token, hu, Except.ok.injEq] at hbody
      subst hbody
      rfl

/-- Closed instance of `C9_amended_token_type` at a concrete store and
credentials on which both endpoints succeed. -/
theorem C9_amended_witness :
    (⟨⟨[("sub", "u1")], 900, "k", "HS256"⟩, ⟨[("sub", "u1")], 900, "k", "HS256"⟩,
        "Bearer", "", 900, 900, 0⟩ : AppToken).token_type = "Bearer" ∧
    (⟨⟨[("sub", "u1")], 900, "k", "HS256"⟩, "bearer"⟩ :
        AccessTokenBody).token_type = "bearer" :=
  C9_amended_token_type ⟨"k", 15, 10080⟩ [⟨"u1", "alice", "a@x"⟩]
    (fun _ _ => true) "alice" "pw" 0 _ _ rfl rfl

/-- C10 counterexample: `some 0` is a non-`None` `expires_delta`, but
`timedelta(0)` is falsy in Python, so `if expires_delta:` sends
`create_access_token` to the access default TTL and `create_refresh_token`
to the refresh default TTL — under settings `⟨"k", 15, 10080⟩` the two
tokens for the same data differ (`exp` 900 versus 604800), refuting the
claim that every non-`None` delta makes the two functions agree. -/
theorem C10_counterexample :
    create_access_token ⟨"k", 15, 10080⟩ [("sub", "u1")] (some 0) 0 ≠
      create_refresh_token ⟨"k", 15, 10080⟩ [("sub", "u1")] (some 0) 0 ∧
    (create_access_token ⟨"k", 15, 10080⟩ [("sub", "u1")] (some 0) 0).exp =
      0 + 15 * 60 ∧
    (create_refresh_token ⟨"k", 15, 10080⟩ [("sub", "u1")] (some 0) 0).exp =
      0 + 10080 * 60 := by
  refine ⟨by decide, rfl, rfl⟩

/-- C10 amended: with an explicit **nonzero** `expires_delta`,
`create_access_token` and `create_refresh_token` compute the same
function — same copied claims, same expiry `now + expires_delta`, same
key and `HS256` algorithm — so under an explicit nonzero expiry an access
token and a refresh token built from the same data and delta are the
identical encoded string; on the falsy deltas (`None`, and the present
but zero `timedelta(0)`) each function falls back to its own default TTL
setting. -/
theorem C10_amended_create_token_functions_agree (settings : Config)
    (data : List (String × String)) (delta now : Nat) (h : delta ≠ 0) :
    create_access_token settings data (some delta) now =
      create_refresh_token settings data (some delta) now ∧
    (create_access_token settings data (some delta) now).exp = now + delta ∧
    (create_access_token settings data none now).exp =
      now + settings.ACCESS_TOKEN_EXPIRE_MINUTES * 60 ∧
    (create_refresh_token settings data none now).exp =
      now + settings.REFRESH_TOKEN_EXPIRE_MINUTES * 60 ∧
    (create_access_token settings data (some 0) now).exp =
      now + settings.ACCESS_TOKEN_EXPIRE_MINUTES * 60 ∧
    (create_refresh_token settings data (some 0) now).exp =
      now + settings.REFRESH_TOKEN_EXPIRE_MINUTES * 60 := by
  have hb : (delta != 0) = true := by simpa using h
  refine ⟨?_, ?_, rfl, rfl, rfl, rfl⟩
  · simp [create_access_token, create_refresh_token, hb]
  · simp [create_access_token, hb]

/-- Closed instance of `C10_amended_create_token_functions_agree` at the
concrete nonzero delta 900. -/
theorem C10_witness :
    create_access_token ⟨"k", 15, 10080⟩ [("sub", "u1")] (some 900) 0 =
      create_refresh_token ⟨"k", 15, 10080⟩ [("sub", "u1")] (some 900) 0 ∧
    (create_access_token ⟨"k", 15, 10080⟩ [("sub", "u1")] (some 900) 0).exp =
      0 + 900 ∧
    (create_access_token ⟨"k", 15, 10080⟩ [("sub", "u1")] none 0).exp =
      0 + 15 * 60 ∧
    (create_refresh_token ⟨"k", 15, 10080⟩ [("sub", "u1")] none 0).exp =
      0 + 10080 * 60 ∧
    (create_access_token ⟨"k", 15, 10080⟩ [("sub", "u1")] (some 0) 0).exp =
      0 + 15 * 60 ∧
    (create_refresh_token ⟨"k", 15, 10080⟩ [("sub", "u1")] (some 0) 0).exp =
      0 + 10080 * 60 :=
  C10_amended_create_token_functions_agree ⟨"k", 15, 10080⟩ [("sub", "u1")]
    900 0 (by decide)

end FastapiBeanieStarter
